import Mathlib

/-!
Verification of the tenant-correlation / token-verification subsystem of a
QuickBooks Online OAuth proxy (source: `personal_qbo_attempt/auth.py`).

The shared Redis store is embedded as an association list of namespaced keys
(`qbo:realm:state:*`, `qbo:realm:code:*`, `qbo:realm:client:*`) to entries
carrying a value and an optional absolute expiry instant; time is an explicit
natural-number parameter `now`.  Values are either raw strings (what the
callback handler writes) or a structured ClientBinding record (what
`store_realm_by_client_id` writes via `json.dumps`).  Python's `json.loads`
is an external standard-library function, so its behaviour on raw strings is
passed in as an oracle `jl : String → JsonResult`; the structured record
always parses as a dict with a `realm_id` field.
-/

namespace QboAuth

/-- A value held in the correlation store: either a raw string (tenant ids
written by the callback handler) or the serialized ClientBinding record
`{realm_id, refresh_token, updated_at}` written by `store_realm_by_client_id`. -/
inductive StoredVal where
  | raw (s : String)
  | binding (realm_id : String) (refresh_token : Option String) (updated_at : Nat)
deriving DecidableEq, Repr

/-- The key namespace used by `auth.py`: `qbo:realm:state:{state}`,
`qbo:realm:code:{code}`, `qbo:realm:client:{client_id}`.  The three families
are disjoint, which the constructors make structural. -/
inductive RKey where
  | stateK (s : String)
  | codeK (c : String)
  | clientK (c : String)
deriving DecidableEq, Repr

/-- A store entry: value plus optional absolute expiry instant
(`none` = durable, `some t` = expires at time `t`). -/
structure Entry where
  val : StoredVal
  expiresAt : Option Nat
deriving DecidableEq, Repr

/-- The shared Redis store, as an association list in scan order. -/
abbrev Store := List (RKey × Entry)

/-- Whether an entry is still live at instant `now` (Redis TTL semantics:
a key set with TTL `ttl` at time `t0` is gone once `now ≥ t0 + ttl`). -/
def live (e : Entry) (now : Nat) : Bool :=
  match e.expiresAt with
  | none => true
  | some t => now < t

/-- Redis GET: the value under `k` if present and not expired. -/
def rget (st : Store) (now : Nat) (k : RKey) : Option StoredVal :=
  match st.find? (fun p => p.1 = k) with
  | some p => if live p.2 now then some p.2.val else none
  | none => none

/-- Redis SET: replace any existing entry for `k` (keys are unique in Redis). -/
def rset (st : Store) (k : RKey) (e : Entry) : Store :=
  st.filter (fun p => p.1 ≠ k) ++ [(k, e)]

/-- Redis SETEX: set with a TTL in seconds. -/
def setex (st : Store) (k : RKey) (ttl : Nat) (v : StoredVal) (now : Nat) : Store :=
  rset st k ⟨v, some (now + ttl)⟩

/-- Redis DEL. -/
def rdel (st : Store) (k : RKey) : Store :=
  st.filter (fun p => p.1 ≠ k)

def isStateKey : RKey → Bool
  | .stateK _ => true
  | _ => false

def isCodeKey : RKey → Bool
  | .codeK _ => true
  | _ => false

def isClientKey : RKey → Bool
  | .clientK _ => true
  | _ => false

/-- Redis SCAN with a key-family pattern (`scan_iter("qbo:realm:state:*")`
etc.): the keys of the matching entries, in store order.  Expired keys may
still be returned; callers re-check with GET, as the Python code does. -/
def scanKeys (st : Store) (f : RKey → Bool) : List RKey :=
  (st.filter (fun p => f p.1)).map Prod.fst

/-- Python truthiness of an optional string (`if x:`): `None` and `""` are falsy. -/
def pyTruthy : Option String → Bool
  | none => false
  | some s => s ≠ ""

/-- Python truthiness of the raw bytes returned by GET (`if value:`):
an empty byte string is falsy; a serialized record is never empty. -/
def valTruthy : StoredVal → Bool
  | .raw s => s ≠ ""
  | .binding _ _ _ => true

/-- Outcome of Python's `json.loads` on a raw string, abstracted as an
oracle (the JSON parser is the standard library, outside this repository):
`err` = `JSONDecodeError`; `dict truthy f` = parses to a dict (`truthy` is
the dict's Python truthiness, `f` its `realm_id` field, if any);
`scalar truthy s` = parses to a non-dict value whose Python truthiness is
`truthy` and whose `str(...)` rendering is `s`. -/
inductive JsonResult where
  | err
  | dict (truthy : Bool) (realmField : Option String)
  | scalar (truthy : Bool) (s : String)
deriving DecidableEq, Repr

/-- `str(...)` of a stored value as Python would decode it from Redis bytes:
the raw string itself, or the JSON text of a serialized binding. -/
def valStr : StoredVal → String
  | .raw s => s
  | .binding r rt u =>
      "\x7b\"realm_id\": \"" ++ r ++ "\", \"refresh_token\": " ++
        (match rt with
          | none => "null"
          | some t => "\"" ++ t ++ "\"") ++
        ", \"updated_at\": \"" ++ toString u ++ "\"\x7d"

/-- `QuickBooksOAuthProxy._store_realm_by_state`: `SETEX qbo:realm:state:{state} 600 realm_id`. -/
def store_realm_by_state (st : Store) (now : Nat) (state realm_id : String) : Store :=
  setex st (.stateK state) 600 (.raw realm_id) now

/-- `QuickBooksOAuthProxy.store_realm_by_client_id`: durable
`SET qbo:realm:client:{client_id}` of the full JSON record
`{realm_id, refresh_token, updated_at}`. -/
def store_realm_by_client_id (st : Store) (client_id realm_id : String)
    (refresh_tok : Option String) (now : Nat) : Store :=
  rset st (.clientK client_id) ⟨.binding realm_id refresh_tok now, none⟩

/-- `QuickBooksOAuthProxy.get_realm_data_by_client_id`: GET on the client key. -/
def get_realm_data_by_client_id (st : Store) (now : Nat) (client_id : String) :
    Option StoredVal :=
  rget st now (.clientK client_id)

/-- Result of `QuickBooksOAuthProxy._handle_idp_callback`: the store after the
conditional writes, plus the fact that the handler delegated to the wrapped
`super()._handle_idp_callback` (it has no early return, so always `true`). -/
structure CallbackOut where
  store : Store
  delegated : Bool
deriving DecidableEq, Repr

/-- `QuickBooksOAuthProxy._handle_idp_callback`: reads `realmId`, `state`,
`code` from the query params (`none` = absent); if `realm_id and state` it
writes the state-keyed entry with 600 s TTL; if `realm_id and code` it also
writes the code-keyed entry with 600 s TTL; then always delegates. -/
def handle_idp_callback (st : Store) (now : Nat)
    (realmId state code : Option String) : CallbackOut :=
  let st1 :=
    if pyTruthy realmId && pyTruthy state then
      store_realm_by_state st now (state.getD "") (realmId.getD "")
    else st
  let st2 :=
    if pyTruthy realmId && pyTruthy code then
      setex st1 (.codeK (code.getD "")) 600 (.raw (realmId.getD "")) now
    else st1
  ⟨st2, true⟩

/-- Method 1 of `exchange_authorization_code`: loop over the scanned
`qbo:realm:state:*` keys; skip dead/empty values; on a value, mimic the
`json.loads` try/except: decode error takes the raw string, a dict takes its
(truthy) `realm_id` field, any other value takes its (nonempty) `str(...)`;
on a take, delete that key and stop.  `acc` is the Python `realm_id`
variable, which retains the last falsy candidate across iterations. -/
def scanStateLoop (jl : String → JsonResult) (st : Store) (now : Nat) :
    List RKey → Option String → Option String × Store
  | [], acc => (acc, st)
  | k :: rest, acc =>
    match rget st now k with
    | none => scanStateLoop jl st now rest acc
    | some v =>
      if valTruthy v then
        match v with
        | .raw s =>
          match jl s with
          | .err => (some s, rdel st k)
          | .dict _ f =>
            if pyTruthy f then (f, rdel st k) else scanStateLoop jl st now rest f
          | .scalar _ s2 =>
            if s2 ≠ "" then (some s2, rdel st k)
            else scanStateLoop jl st now rest (some s2)
        | .binding r _ _ =>
          if r ≠ "" then (some r, rdel st k)
          else scanStateLoop jl st now rest (some r)
      else scanStateLoop jl st now rest acc

/-- Method 2 of `exchange_authorization_code` (legacy fallback): loop over
the scanned `qbo:realm:code:*` keys; take the first live nonempty value
as-is (no JSON parsing), delete that key and stop. -/
def scanCodeLoop (st : Store) (now : Nat) :
    List RKey → Option String → Option String × Store
  | [], acc => (acc, st)
  | k :: rest, acc =>
    match rget st now k with
    | none => scanCodeLoop st now rest acc
    | some v =>
      if valTruthy v then (some (valStr v), rdel st k)
      else scanCodeLoop st now rest acc

/-- Result of `exchange_authorization_code`: the final Python `realm_id`
variable and the store after the scans' deletes and the binding write.  The
token-exchange result itself comes from the external `super()` call and is
returned unchanged, so it is not modelled. -/
structure ExchangeOut where
  realm : Option String
  store : Store
deriving DecidableEq, Repr

/-- `QuickBooksOAuthProxy.exchange_authorization_code`.  `idpRefreshTok`
models the `refresh_token` found in the external code store's record for
this authorization code (`self._code_store.get(...)` / `idp_tokens`), which
is outside this repository.  Note the scans are NOT scoped by
`authorization_code`: that argument only feeds the external code-store
lookup and the external `super()` exchange. -/
def exchange_authorization_code (jl : String → JsonResult)
    (idpRefreshTok : Option String) (_authorization_code client_id : String)
    (st : Store) (now : Nat) : ExchangeOut :=
  let m1 := scanStateLoop jl st now (scanKeys st isStateKey) none
  let m2 :=
    if pyTruthy m1.1 then m1
    else scanCodeLoop m1.2 now (scanKeys m1.2 isCodeKey) m1.1
  match m2.1 with
  | some r =>
    if r ≠ "" ∧ client_id ≠ "" then
      ⟨some r, store_realm_by_client_id m2.2 client_id r idpRefreshTok now⟩
    else ⟨m2.1, m2.2⟩
  | none => ⟨none, m2.2⟩

/-- The QuickBooks accounting scope constant. -/
def QBO_ACCOUNTING_SCOPE : String := "com.intuit.quickbooks.accounting"

/-- `QBOTokenVerifier.__init__`: the verifier's `required_scopes` after
construction is the passed list, defaulting to `[QBO_ACCOUNTING_SCOPE]`
when the argument is `None` or empty (`required_scopes or [...]`). -/
def verifierScopes (passed : Option (List String)) : List String :=
  match passed with
  | none => [QBO_ACCOUNTING_SCOPE]
  | some l => if l.isEmpty then [QBO_ACCOUNTING_SCOPE] else l

/-- Python `key_str.split(":")[-1]`. -/
def lastColonPart (s : String) : String :=
  (s.splitOn ":").getLastD ""

/-- The client id `verify_token` recovers from a scanned key string by
`key_str.split(":")[-1]` (the key string being the full namespaced key). -/
def clientIdOfKey : RKey → String
  | .stateK s => lastColonPart ("qbo:realm:state:" ++ s)
  | .codeK c => lastColonPart ("qbo:realm:code:" ++ c)
  | .clientK c => lastColonPart ("qbo:realm:client:" ++ c)

/-- Outcome of the outbound userinfo introspection call in `verify_token`:
an HTTP status, `httpx.TimeoutException`, or any other raised exception. -/
inductive VerifyOutcome where
  | status (code : Nat)
  | timeout
  | exc
deriving DecidableEq, Repr

/-- The `AccessToken` returned by `verify_token`, with its `claims` dict
flattened into fields: `upstream_access_token`, `realm_id`, `validated_at`,
and the `timeout` claim (present only on the fail-open path, modelled as a
Bool that is `false` when the claim is absent). -/
structure AccessTok where
  token : String
  client_id : String
  scopes : List String
  upstream_access_token : String
  realm_id : Option String
  validated_at : Nat
  timeoutFlag : Bool
deriving DecidableEq, Repr

/-- `QBOTokenVerifier.verify_token`.  A 401 from introspection fails closed;
any other status proceeds (non-200 is only logged); then the verifier scans
`qbo:realm:client:*`, unconditionally stops after the first key, looks up
that client's realm record, and returns an authenticated token whose scopes
are `self.required_scopes or []`.  A timeout fails open with a null realm
and the timeout claim set; any other exception fails closed (`None`) — which
is also where a malformed client record ends up (a `json.loads` error or an
`AttributeError` on `.get` of a non-dict propagates to the outer `except`). -/
def verify_token (jl : String → JsonResult) (outcome : VerifyOutcome)
    (st : Store) (now : Nat) (required_scopes : List String) (token : String) :
    Option AccessTok :=
  match outcome with
  | .exc => none
  | .timeout =>
    some ⟨token, "timeout-fallback",
      (if required_scopes.isEmpty then [] else required_scopes),
      token, none, now, true⟩
  | .status c =>
    if c = 401 then none
    else
      match scanKeys st isClientKey with
      | [] =>
        some ⟨token, "default",
          (if required_scopes.isEmpty then [] else required_scopes),
          token, none, now, false⟩
      | k :: _ =>
        let cid := clientIdOfKey k
        match get_realm_data_by_client_id st now cid with
        | none =>
          some ⟨token, cid,
            (if required_scopes.isEmpty then [] else required_scopes),
            token, none, now, false⟩
        | some (.binding r _ _) =>
          some ⟨token, cid,
            (if required_scopes.isEmpty then [] else required_scopes),
            token, some r, now, false⟩
        | some (.raw s) =>
          match jl s with
          | .err => none
          | .dict t f =>
            some ⟨token, cid,
              (if required_scopes.isEmpty then [] else required_scopes),
              token, (if t then f else none), now, false⟩
          | .scalar t _ =>
            if t then none
            else
              some ⟨token, cid,
                (if required_scopes.isEmpty then [] else required_scopes),
                token, none, now, false⟩

/-- Parsed JSON body of the refresh response (`response.json()`):
`data.get("access_token")` and `data.get("refresh_token")`. -/
structure RefreshBody where
  access_token : Option String
  refresh_token : Option String
deriving DecidableEq, Repr

/-- Outcome of the outbound POST to the token endpoint in `_refresh_token`:
a status with the (optionally unparseable) JSON body, or a transport error. -/
inductive RefreshHttp where
  | status (code : Nat) (body : Option RefreshBody)
  | transportError
deriving DecidableEq, Repr

/-- Result of `_refresh_token`: `Some (new_access_token, new_refresh_token)`
or `None`, plus the resulting store. -/
structure RefreshOut where
  result : Option (Option String × String)
  store : Store
deriving DecidableEq, Repr

/-- `QBOTokenVerifier._refresh_token`: non-200 returns `None` untouched; a
200 whose body fails to parse raises and is caught (`None`, untouched); a
parsed 200 computes `new_refresh = data.get("refresh_token", refresh_token)`,
persists the full binding via `store_realm_by_client_id`, and returns the
pair.  There is no retry. -/
def refresh_qbo_token (http : RefreshHttp) (st : Store) (now : Nat)
    (refresh_tok realm_id client_id : String) : RefreshOut :=
  match http with
  | .transportError => ⟨none, st⟩
  | .status c body =>
    if c ≠ 200 then ⟨none, st⟩
    else
      match body with
      | none => ⟨none, st⟩
      | some b =>
        let newRefresh := b.refresh_token.getD refresh_tok
        ⟨some (b.access_token, newRefresh),
          store_realm_by_client_id st client_id realm_id newRefresh now⟩

/-! ### Helper lemmas about the store primitives -/

/-- A store containing no transient (state- or code-keyed) entries. -/
def noTransient (st : Store) : Prop :=
  ∀ p ∈ st, isStateKey p.1 = false ∧ isCodeKey p.1 = false

theorem rget_rset_self (st : Store) (k : RKey) (e : Entry) (now : Nat) :
    rget (rset st k e) now k = if live e now then some e.val else none := by
  unfold rget rset
  rw [List.find?_append]
  have h1 : (st.filter (fun p => p.1 ≠ k)).find? (fun p => p.1 = k) = none := by
    rw [List.find?_eq_none]
    intro x hx
    simp only [List.mem_filter, decide_eq_true_eq] at hx ⊢
    exact hx.2
  rw [h1]
  simp [List.find?]

theorem rget_rset_ne (st : Store) (k k' : RKey) (e : Entry) (now : Nat)
    (hne : k' ≠ k) :
    rget (rset st k e) now k' = rget st now k' := by
  unfold rget rset
  rw [List.find?_append]
  have h2 : ([(k, e)].find? (fun p => p.1 = k')) = none := by
    simp [List.find?, Ne.symm hne]
  have h1 : (st.filter (fun p => p.1 ≠ k)).find? (fun p => p.1 = k')
      = st.find? (fun p => p.1 = k') := by
    rw [List.find?_filter]
    congr 1
    funext a
    simp only [decide_eq_decide, decide_eq_true_eq]
    constructor
    · intro h
      exact h.2
    · intro h
      exact ⟨by simpa [h] using hne, h⟩
  rw [h1, h2, Option.or_none]

theorem rget_rdel_self (st : Store) (k : RKey) (now : Nat) :
    rget (rdel st k) now k = none := by
  unfold rget rdel
  have h1 : (st.filter (fun p => p.1 ≠ k)).find? (fun p => p.1 = k) = none := by
    rw [List.find?_eq_none]
    intro x hx
    simp only [List.mem_filter, decide_eq_true_eq] at hx ⊢
    exact hx.2
  rw [h1]

theorem rget_rdel_ne (st : Store) (k k' : RKey) (now : Nat) (hne : k' ≠ k) :
    rget (rdel st k) now k' = rget st now k' := by
  unfold rget rdel
  have h1 : (st.filter (fun p => p.1 ≠ k)).find? (fun p => p.1 = k')
      = st.find? (fun p => p.1 = k') := by
    rw [List.find?_filter]
    congr 1
    funext a
    simp only [decide_eq_decide, decide_eq_true_eq]
    constructor
    · intro h
      exact h.2
    · intro h
      exact ⟨by simpa [h] using hne, h⟩
  rw [h1]

theorem rset_of_absent (st : Store) (k : RKey) (e : Entry)
    (h : ∀ p ∈ st, p.1 ≠ k) : rset st k e = st ++ [(k, e)] := by
  unfold rset
  congr 1
  rw [List.filter_eq_self]
  intro p hp
  simpa using h p hp

theorem rdel_of_absent (st : Store) (k : RKey)
    (h : ∀ p ∈ st, p.1 ≠ k) : rdel st k = st := by
  unfold rdel
  rw [List.filter_eq_self]
  intro p hp
  simpa using h p hp

theorem scanKeys_append (l1 l2 : Store) (f : RKey → Bool) :
    scanKeys (l1 ++ l2) f = scanKeys l1 f ++ scanKeys l2 f := by
  unfold scanKeys
  rw [List.filter_append, List.map_append]

theorem scanKeys_nil_of (st : Store) (f : RKey → Bool)
    (h : ∀ p ∈ st, f p.1 = false) : scanKeys st f = [] := by
  unfold scanKeys
  have : st.filter (fun p => f p.1) = [] := by
    rw [List.filter_eq_nil_iff]
    intro p hp
    simp [h p hp]
  rw [this]
  rfl

theorem rget_append_right (l1 l2 : Store) (k : RKey) (now : Nat)
    (h : ∀ p ∈ l1, p.1 ≠ k) :
    rget (l1 ++ l2) now k = rget l2 now k := by
  unfold rget
  rw [List.find?_append]
  have h1 : l1.find? (fun p => p.1 = k) = none := by
    rw [List.find?_eq_none]
    intro x hx
    simpa using h x hx
  rw [h1, Option.none_or]

/-- State keys from a `noTransient` store never collide with anything the
transient writers create. -/
theorem noTransient_ne_stateK (st : Store) (h : noTransient st) (s : String) :
    ∀ p ∈ st, p.1 ≠ RKey.stateK s := by
  intro p hp heq
  have := (h p hp).1
  rw [heq] at this
  simp [isStateKey] at this

theorem noTransient_ne_codeK (st : Store) (h : noTransient st) (c : String) :
    ∀ p ∈ st, p.1 ≠ RKey.codeK c := by
  intro p hp heq
  have := (h p hp).2
  rw [heq] at this
  simp [isCodeKey] at this

theorem noTransient_scanState (st : Store) (h : noTransient st) :
    scanKeys st isStateKey = [] := by
  apply scanKeys_nil_of
  intro p hp
  exact (h p hp).1

theorem noTransient_scanCode (st : Store) (h : noTransient st) :
    scanKeys st isCodeKey = [] := by
  apply scanKeys_nil_of
  intro p hp
  exact (h p hp).2

theorem rget_of_absent (st : Store) (k : RKey) (now : Nat)
    (h : ∀ p ∈ st, p.1 ≠ k) : rget st now k = none := by
  unfold rget
  have h1 : st.find? (fun p => p.1 = k) = none := by
    rw [List.find?_eq_none]
    intro x hx
    simpa using h x hx
  rw [h1]

theorem rget_singleton (k : RKey) (e : Entry) (now : Nat) :
    rget [(k, e)] now k = if live e now then some e.val else none := by
  simp [rget, List.find?]

theorem rdel_rset_self (st : Store) (k : RKey) (e : Entry) :
    rdel (rset st k e) k = rdel st k := by
  unfold rdel rset
  rw [List.filter_append, List.filter_filter]
  simp [List.filter]

theorem rdel_rset_comm (st : Store) (k k' : RKey) (e : Entry) (hne : k ≠ k') :
    rdel (rset st k e) k' = rset (rdel st k') k e := by
  unfold rdel rset
  rw [List.filter_append, List.filter_filter, List.filter_filter]
  have h1 : (fun (p : RKey × Entry) => p.1 ≠ k' && p.1 ≠ k)
      = fun p => p.1 ≠ k && p.1 ≠ k' := by
    funext p
    rcases Bool.eq_false_or_eq_true (decide (p.1 = k)) with h | h <;>
      rcases Bool.eq_false_or_eq_true (decide (p.1 = k')) with h' | h' <;>
        simp_all
  rw [h1]
  simp [List.filter, hne]

theorem rget_some_mem (st : Store) (now : Nat) (k : RKey) (v : StoredVal)
    (h : rget st now k = some v) :
    ∃ p, p ∈ st ∧ p.1 = k ∧ p.2.val = v := by
  unfold rget at h
  rcases hf : st.find? (fun p => p.1 = k) with _ | p
  · rw [hf] at h
    exact absurd h (by simp)
  · rw [hf] at h
    have h' : (if live p.2 now = true then some p.2.val else none) = some v := h
    split at h'
    · injection h' with h'
      exact ⟨p, List.mem_of_find?_eq_some hf, by simpa using List.find?_some hf, h'⟩
    · exact absurd h' (by simp)

theorem mem_scanKeys (st : Store) (f : RKey → Bool) (k : RKey)
    (h : k ∈ scanKeys st f) : f k = true := by
  unfold scanKeys at h
  rcases List.mem_map.1 h with ⟨p, hp, rfl⟩
  exact (List.mem_filter.1 hp).2

theorem verifierScopes_ne_nil (ps : Option (List String)) :
    verifierScopes ps ≠ [] := by
  unfold verifierScopes
  rcases ps with _ | l
  · simp
  · cases l with
    | nil => simp
    | cons a t => simp

theorem verifierScopes_or_nil (ps : Option (List String)) :
    (if (verifierScopes ps).isEmpty then ([] : List String)
      else verifierScopes ps) = verifierScopes ps := by
  rw [if_neg]
  simp only [List.isEmpty_iff]
  exact verifierScopes_ne_nil ps

/-- Every authenticated result of `verify_token` carries the presented token
in both `token` and `upstream_access_token`, and `self.required_scopes or []`
as its scopes: the constructions on every `some` branch agree on these fields. -/
theorem verify_some_shape (jl : String → JsonResult) (oc : VerifyOutcome)
    (st : Store) (now : Nat) (rs : List String) (token : String) (a : AccessTok)
    (h : verify_token jl oc st now rs token = some a) :
    a.token = token ∧ a.upstream_access_token = token
      ∧ a.scopes = (if rs.isEmpty then [] else rs)
      ∧ a.validated_at = now := by
  cases oc with
  | exc => exact absurd h (by simp [verify_token])
  | timeout =>
    simp only [verify_token] at h
    injection h with h
    rw [← h]
    exact ⟨rfl, rfl, rfl, rfl⟩
  | status c =>
    simp only [verify_token] at h
    split at h
    · exact absurd h (by simp)
    · split at h
      · injection h with h
        rw [← h]
        exact ⟨rfl, rfl, rfl, rfl⟩
      · split at h
        · injection h with h
          rw [← h]
          exact ⟨rfl, rfl, rfl, rfl⟩
        · injection h with h
          rw [← h]
          exact ⟨rfl, rfl, rfl, rfl⟩
        · split at h
          · exact absurd h (by simp)
          · injection h with h
            rw [← h]
            exact ⟨rfl, rfl, rfl, rfl⟩
          · split at h
            · exact absurd h (by simp)
            · injection h with h
              rw [← h]
              exact ⟨rfl, rfl, rfl, rfl⟩

/-! ### Claim theorems -/

/-- C3: for every token and every store state, when the upstream introspection
call returns HTTP 401, `verify_token` returns the unauthenticated result
(`None`); the outcome does not depend on the correlation store and no
fallback path is taken. -/
theorem C3_verify_401_unauthenticated (jl : String → JsonResult) (st : Store)
    (now : Nat) (rs : List String) (token : String) :
    verify_token jl (.status 401) st now rs token = none := by
  simp [verify_token]

/-- C4: for every token, when the upstream introspection call times out,
`verify_token` fails open: it returns an authenticated claims bundle whose
realm id is null and whose timeout claim is set to true (and whose token and
upstream token are the presented token). -/
theorem C4_verify_timeout_fail_open (jl : String → JsonResult) (st : Store)
    (now : Nat) (rs : List String) (token : String) :
    ∃ a, verify_token jl .timeout st now rs token = some a
      ∧ a.realm_id = none ∧ a.timeoutFlag = true
      ∧ a.token = token ∧ a.client_id = "timeout-fallback" :=
  ⟨_, rfl, rfl, rfl, rfl, rfl⟩

/-- C5: every write of a ClientBinding (`store_realm_by_client_id`, called at
successful code exchange and at refresh rotation) fully replaces any prior
binding for that client id with the complete record
`{realm_id, refresh_token, updated_at}` built from the arguments alone: the
stored record is exactly the new one regardless of any prior value, exactly
one record exists for that client key afterwards, and no other key changes. -/
theorem C5_binding_full_replacement (st : Store) (cid realm : String)
    (rt : Option String) (now : Nat) :
    (∀ m, rget (store_realm_by_client_id st cid realm rt now) m (.clientK cid)
        = some (.binding realm rt now))
      ∧ ((store_realm_by_client_id st cid realm rt now).filter
          (fun p => p.1 = RKey.clientK cid)).length = 1
      ∧ (∀ k, k ≠ RKey.clientK cid → ∀ m,
          rget (store_realm_by_client_id st cid realm rt now) m k
            = rget st m k) := by
  unfold store_realm_by_client_id
  refine ⟨?_, ?_, ?_⟩
  · intro m
    rw [rget_rset_self]
    rfl
  · unfold rset
    rw [List.filter_append, List.filter_filter]
    have h1 : st.filter (fun p =>
        decide (p.1 = RKey.clientK cid) && decide (p.1 ≠ RKey.clientK cid)) = [] := by
      rw [List.filter_eq_nil_iff]
      intro p _
      rcases Bool.eq_false_or_eq_true (decide (p.1 = RKey.clientK cid)) with h | h <;>
        simp_all
    rw [h1]
    simp [List.filter]
  · intro k hk m
    exact rget_rset_ne st (RKey.clientK cid) k _ m hk

/-- C5 witness: overwriting an existing binding for client `c1` leaves the
fresh complete record, exactly one record, and an unrelated key untouched. -/
theorem C5_binding_full_replacement_witness :
    (RKey.stateK "x" ≠ RKey.clientK "c1")
      ∧ (rget (store_realm_by_client_id
            [(RKey.clientK "c1", ⟨.binding "old" (some "r0") 0, none⟩)]
            "c1" "200" (some "r1") 5) 7 (.clientK "c1")
          = some (.binding "200" (some "r1") 5))
      ∧ ((store_realm_by_client_id
            [(RKey.clientK "c1", ⟨.binding "old" (some "r0") 0, none⟩)]
            "c1" "200" (some "r1") 5).filter
          (fun p => p.1 = RKey.clientK "c1")).length = 1
      ∧ (rget (store_realm_by_client_id
            [(RKey.clientK "c1", ⟨.binding "old" (some "r0") 0, none⟩)]
            "c1" "200" (some "r1") 5) 7 (.stateK "x")
          = rget [(RKey.clientK "c1", ⟨.binding "old" (some "r0") 0, none⟩)]
              7 (.stateK "x")) :=
  ⟨by decide,
    (C5_binding_full_replacement
      [(RKey.clientK "c1", ⟨.binding "old" (some "r0") 0, none⟩)]
      "c1" "200" (some "r1") 5).1 7,
    (C5_binding_full_replacement
      [(RKey.clientK "c1", ⟨.binding "old" (some "r0") 0, none⟩)]
      "c1" "200" (some "r1") 5).2.1,
    (C5_binding_full_replacement
      [(RKey.clientK "c1", ⟨.binding "old" (some "r0") 0, none⟩)]
      "c1" "200" (some "r1") 5).2.2 (.stateK "x") (by decide) 7⟩

/-- C7: on a successful refresh (HTTP 200 whose body carries a new refresh
token), `_refresh_token` persists the rotated refresh token into the
ClientBinding before returning: the returned pair carries the new token and
the stored binding a subsequent refresh would read for this client holds the
new value, not the stale one. -/
theorem C7_refresh_rotation_persisted (st : Store) (now : Nat)
    (rt realm cid : String) (b : RefreshBody) (newRt : String)
    (hb : b.refresh_token = some newRt) :
    (refresh_qbo_token (.status 200 (some b)) st now rt realm cid).result
        = some (b.access_token, newRt)
      ∧ (∀ m, get_realm_data_by_client_id
          (refresh_qbo_token (.status 200 (some b)) st now rt realm cid).store
          m cid = some (.binding realm (some newRt) now)) := by
  have hmain : refresh_qbo_token (.status 200 (some b)) st now rt realm cid
      = ⟨some (b.access_token, newRt),
          store_realm_by_client_id st cid realm (some newRt) now⟩ := by
    simp [refresh_qbo_token, hb]
  constructor
  · rw [hmain]
  · intro m
    rw [hmain]
    unfold get_realm_data_by_client_id store_realm_by_client_id
    rw [rget_rset_self]
    rfl

/-- C7 witness: a concrete 200 refresh response rotates `old-rt` to `new-rt`
in the stored binding. -/
theorem C7_refresh_rotation_persisted_witness :
    ((⟨some "at2", some "new-rt"⟩ : RefreshBody).refresh_token = some "new-rt")
      ∧ (refresh_qbo_token (.status 200 (some ⟨some "at2", some "new-rt"⟩))
          [(RKey.clientK "c1", ⟨.binding "200" (some "old-rt") 0, none⟩)]
          9 "old-rt" "200" "c1").result = some (some "at2", "new-rt")
      ∧ get_realm_data_by_client_id
          (refresh_qbo_token (.status 200 (some ⟨some "at2", some "new-rt"⟩))
            [(RKey.clientK "c1", ⟨.binding "200" (some "old-rt") 0, none⟩)]
            9 "old-rt" "200" "c1").store 11 "c1"
          = some (.binding "200" (some "new-rt") 9) :=
  ⟨rfl,
    (C7_refresh_rotation_persisted
      [(RKey.clientK "c1", ⟨.binding "200" (some "old-rt") 0, none⟩)]
      9 "old-rt" "200" "c1" ⟨some "at2", some "new-rt"⟩ "new-rt" rfl).1,
    (C7_refresh_rotation_persisted
      [(RKey.clientK "c1", ⟨.binding "200" (some "old-rt") 0, none⟩)]
      9 "old-rt" "200" "c1" ⟨some "at2", some "new-rt"⟩ "new-rt" rfl).2 11⟩

/-- C8: when the token endpoint returns a non-success status or the
transport raises, `_refresh_token` returns the failure indicator (`None`)
without retrying, and the store — hence the ClientBinding — is unchanged
(no write occurs on the failure path; an unparseable 200 body likewise
fails without a write). -/
theorem C8_refresh_failure_no_write (st : Store) (now : Nat)
    (rt realm cid : String) :
    (∀ c body, c ≠ 200 →
        refresh_qbo_token (.status c body) st now rt realm cid = ⟨none, st⟩)
      ∧ refresh_qbo_token .transportError st now rt realm cid = ⟨none, st⟩
      ∧ refresh_qbo_token (.status 200 none) st now rt realm cid = ⟨none, st⟩ := by
  refine ⟨?_, rfl, by simp [refresh_qbo_token]⟩
  intro c body hc
  simp [refresh_qbo_token, hc]

/-- C8 witness: a 500 response and a transport error both fail with the
store untouched. -/
theorem C8_refresh_failure_no_write_witness :
    ((500 : Nat) ≠ 200)
      ∧ refresh_qbo_token (.status 500 (some ⟨some "a", some "r"⟩))
          [(RKey.clientK "c1", ⟨.binding "200" (some "old-rt") 0, none⟩)]
          3 "old-rt" "200" "c1"
        = ⟨none, [(RKey.clientK "c1", ⟨.binding "200" (some "old-rt") 0, none⟩)]⟩
      ∧ refresh_qbo_token .transportError
          [(RKey.clientK "c1", ⟨.binding "200" (some "old-rt") 0, none⟩)]
          3 "old-rt" "200" "c1"
        = ⟨none, [(RKey.clientK "c1", ⟨.binding "200" (some "old-rt") 0, none⟩)]⟩ :=
  ⟨by decide,
    (C8_refresh_failure_no_write
      [(RKey.clientK "c1", ⟨.binding "200" (some "old-rt") 0, none⟩)]
      3 "old-rt" "200" "c1").1 500 (some ⟨some "a", some "r"⟩) (by decide),
    (C8_refresh_failure_no_write
      [(RKey.clientK "c1", ⟨.binding "200" (some "old-rt") 0, none⟩)]
      3 "old-rt" "200" "c1").2.1⟩

theorem rget_cond_rset (b : Bool) (stx : Store) (k k' : RKey) (e : Entry)
    (m : Nat) (hne : b = true → k' ≠ k) :
    rget (if b = true then rset stx k e else stx) m k' = rget stx m k' := by
  cases b
  · simp
  · simpa using rget_rset_ne stx k k' e m (hne rfl)

/-- C9: the callback handler performs exactly the conditional writes the spec
lists and no others: with `tenantId` and `state` both present (non-empty) it
writes the state-keyed entry, live precisely for 600 seconds; with `tenantId`
and `code` both present it additionally writes the code-keyed entry, live
precisely for 600 seconds; with `tenantId` absent the store is unchanged;
every key other than those two is untouched (so 0, 1 or 2 writes occur), and
the delegation to the wrapped flow always proceeds. -/
theorem C9_callback_conditional_writes (st : Store) (now m : Nat)
    (realmId state code : Option String) :
    (handle_idp_callback st now realmId state code).delegated = true
      ∧ (realmId = none → (handle_idp_callback st now realmId state code).store = st)
      ∧ (∀ r s, realmId = some r → r ≠ "" → state = some s → s ≠ "" →
          rget (handle_idp_callback st now realmId state code).store m (.stateK s)
            = if m < now + 600 then some (.raw r) else none)
      ∧ (∀ r c, realmId = some r → r ≠ "" → code = some c → c ≠ "" →
          rget (handle_idp_callback st now realmId state code).store m (.codeK c)
            = if m < now + 600 then some (.raw r) else none)
      ∧ (∀ k, (∀ s, state = some s → k ≠ RKey.stateK s) →
          (∀ c, code = some c → k ≠ RKey.codeK c) →
          rget (handle_idp_callback st now realmId state code).store m k
            = rget st m k) := by
  refine ⟨rfl, ?_, ?_, ?_, ?_⟩
  · intro h
    subst h
    simp [handle_idp_callback, pyTruthy]
  · intro r s hr hrne hs hsne
    subst hr
    subst hs
    have h1 : (pyTruthy (some r) && pyTruthy (some s)) = true := by
      simp [pyTruthy, hrne, hsne]
    simp only [handle_idp_callback, store_realm_by_state, setex, h1, if_true,
      Option.getD_some]
    rw [rget_cond_rset]
    · rw [rget_rset_self]
      simp [live]
    · intro _ heq
      exact RKey.noConfusion heq
  · intro r c hr hrne hc hcne
    subst hr
    subst hc
    have h2 : (pyTruthy (some r) && pyTruthy (some c)) = true := by
      simp [pyTruthy, hrne, hcne]
    simp only [handle_idp_callback, store_realm_by_state, setex, h2, if_true,
      Option.getD_some]
    rw [rget_rset_self]
    simp [live]
  · intro k hks hkc
    simp only [handle_idp_callback, store_realm_by_state, setex]
    rw [rget_cond_rset, rget_cond_rset]
    · intro hb
      rw [Bool.and_eq_true] at hb
      rcases hb with ⟨_, hbs⟩
      rcases state with _ | s
      · exact absurd hbs (by simp [pyTruthy])
      · exact hks s rfl
    · intro hb
      rw [Bool.and_eq_true] at hb
      rcases hb with ⟨_, hbc⟩
      rcases code with _ | c
      · exact absurd hbc (by simp [pyTruthy])
      · exact hkc c rfl

/-- C9 witness: with tenant `123`, state `s1` and code `abc` all present, the
two transient entries are readable within their TTL, an unrelated key is
untouched, and the handler delegates; with the tenant absent nothing is
written. -/
theorem C9_callback_conditional_writes_witness :
    (handle_idp_callback [] 0 (some "123") (some "s1") (some "abc")).delegated = true
      ∧ rget (handle_idp_callback [] 0 (some "123") (some "s1") (some "abc")).store
          5 (.stateK "s1") = (if 5 < 0 + 600 then some (.raw "123") else none)
      ∧ rget (handle_idp_callback [] 0 (some "123") (some "s1") (some "abc")).store
          5 (.codeK "abc") = (if 5 < 0 + 600 then some (.raw "123") else none)
      ∧ rget (handle_idp_callback [] 0 (some "123") (some "s1") (some "abc")).store
          5 (.clientK "c1") = rget [] 5 (.clientK "c1")
      ∧ (handle_idp_callback [] 0 none (some "s1") (some "abc")).store = [] :=
  ⟨(C9_callback_conditional_writes [] 0 5 (some "123") (some "s1") (some "abc")).1,
    (C9_callback_conditional_writes [] 0 5 (some "123") (some "s1") (some "abc")).2.2.1
      "123" "s1" rfl (by decide) rfl (by decide),
    (C9_callback_conditional_writes [] 0 5 (some "123") (some "s1") (some "abc")).2.2.2.1
      "123" "abc" rfl (by decide) rfl (by decide),
    (C9_callback_conditional_writes [] 0 5 (some "123") (some "s1") (some "abc")).2.2.2.2
      (.clientK "c1") (fun s _ => by simp) (fun c _ => by simp),
    (C9_callback_conditional_writes [] 0 5 none (some "s1") (some "abc")).2.1 rfl⟩

theorem scanStateLoop_nil (jl : String → JsonResult) (st : Store) (now : Nat)
    (acc : Option String) : scanStateLoop jl st now [] acc = (acc, st) := rfl

/-- If the head key holds a live nonempty raw value that the JSON oracle
either rejects or renders back to itself, the state scan takes it and
deletes that key. -/
theorem scanStateLoop_take (jl : String → JsonResult) (st : Store) (now : Nat)
    (k : RKey) (t : String) (rest : List RKey) (acc : Option String)
    (hget : rget st now k = some (.raw t)) (ht : t ≠ "")
    (hjl : jl t = .err ∨ ∃ b, jl t = .scalar b t) :
    scanStateLoop jl st now (k :: rest) acc = (some t, rdel st k) := by
  rw [scanStateLoop, hget]
  rcases hjl with hjl | ⟨b, hjl⟩
  · simp [valTruthy, ht, hjl]
  · simp [valTruthy, ht, hjl]

theorem scanCodeLoop_nil (st : Store) (now : Nat) (acc : Option String) :
    scanCodeLoop st now [] acc = (acc, st) := rfl

/-- If the head key holds a live nonempty value, the code scan takes its
string rendering and deletes that key. -/
theorem scanCodeLoop_take (st : Store) (now : Nat) (k : RKey) (v : StoredVal)
    (rest : List RKey) (acc : Option String)
    (hget : rget st now k = some v) (hv : valTruthy v = true) :
    scanCodeLoop st now (k :: rest) acc = (some (valStr v), rdel st k) := by
  rw [scanCodeLoop, hget]
  simp [hv]

/-- C1: for a (state, tenantId) pair written by the callback handler, an
exchange within the 600-second TTL against a store with no other transient
entries resolves exactly that tenantId, binds it to the client (full
ClientBinding written under the client key), and deletes the state-keyed
entry.  The hypothesis on the JSON oracle pins the external `json.loads` on
the tenant id to the two behaviours a QuickBooks realm id (an opaque digit
string) exhibits: parse failure, or a scalar whose `str(...)` is the id
itself. -/
theorem C1_state_resolution (jl : String → JsonResult) (st0 : Store)
    (t s cid ac : String) (rt : Option String) (now now' : Nat)
    (hst : noTransient st0) (ht : t ≠ "") (hs : s ≠ "") (hcid : cid ≠ "")
    (httl : now' < now + 600)
    (hjl : jl t = .err ∨ ∃ b, jl t = .scalar b t) :
    ∃ stFin, exchange_authorization_code jl rt ac cid
        (handle_idp_callback st0 now (some t) (some s) none).store now'
          = ⟨some t, stFin⟩
      ∧ rget stFin now' (.stateK s) = none
      ∧ (∀ p ∈ stFin, p.1 ≠ RKey.stateK s)
      ∧ (∀ m, rget stFin m (.clientK cid) = some (.binding t rt now')) := by
  have habs : ∀ p ∈ st0, p.1 ≠ RKey.stateK s := noTransient_ne_stateK st0 hst s
  have hcb : (handle_idp_callback st0 now (some t) (some s) none).store
      = rset st0 (.stateK s) ⟨.raw t, some (now + 600)⟩ := by
    have h1 : (pyTruthy (some t) && pyTruthy (some s)) = true := by
      simp [pyTruthy, ht, hs]
    simp only [handle_idp_callback, store_realm_by_state, setex, h1,
      Option.getD_some]
    simp [pyTruthy]
  have happ : rset st0 (.stateK s) ⟨.raw t, some (now + 600)⟩
      = st0 ++ [(RKey.stateK s, ⟨.raw t, some (now + 600)⟩)] :=
    rset_of_absent st0 _ _ habs
  have hscan : scanKeys (rset st0 (.stateK s) ⟨.raw t, some (now + 600)⟩)
      isStateKey = [RKey.stateK s] := by
    rw [happ, scanKeys_append, noTransient_scanState st0 hst]
    simp [scanKeys, isStateKey]
  have hget1 : rget (rset st0 (.stateK s) ⟨.raw t, some (now + 600)⟩) now'
      (.stateK s) = some (.raw t) := by
    rw [rget_rset_self]
    simp [live, httl]
  have hdel : rdel (rset st0 (.stateK s) ⟨.raw t, some (now + 600)⟩)
      (.stateK s) = st0 := by
    rw [rdel_rset_self]
    exact rdel_of_absent st0 _ habs
  have hm1 : scanStateLoop jl (rset st0 (.stateK s) ⟨.raw t, some (now + 600)⟩)
      now' [RKey.stateK s] none = (some t, st0) := by
    rw [scanStateLoop_take jl _ now' _ t [] none hget1 ht hjl, hdel]
  have hex : exchange_authorization_code jl rt ac cid
      (rset st0 (.stateK s) ⟨.raw t, some (now + 600)⟩) now'
        = ⟨some t, store_realm_by_client_id st0 cid t rt now'⟩ := by
    unfold exchange_authorization_code
    rw [hscan, hm1]
    simp [pyTruthy, ht, hcid]
  refine ⟨store_realm_by_client_id st0 cid t rt now', ?_, ?_, ?_, ?_⟩
  · rw [hcb]
    exact hex
  · unfold store_realm_by_client_id
    rw [rget_rset_ne _ _ _ _ _ (fun h => RKey.noConfusion h)]
    exact rget_of_absent st0 _ now' habs
  · intro p hp
    unfold store_realm_by_client_id rset at hp
    rcases List.mem_append.1 hp with hp | hp
    · exact habs p (List.mem_of_mem_filter hp)
    · rw [List.mem_singleton.1 hp]
      exact fun h => RKey.noConfusion h
  · intro m
    unfold store_realm_by_client_id
    rw [rget_rset_self]
    rfl

/-- Concrete `json.loads` oracle for the examples, fixing the behaviour on
the three realm ids the scenarios use: each is a canonical decimal digit
string, which Python parses as a JSON number (a truthy non-dict) whose
`str(...)` rendering is the string itself; every other string is treated as
unparseable. -/
def jlNum : String → JsonResult := fun s =>
  if s = "123" || s = "999" || s = "456" then .scalar true s else .err

/-- C1 witness: Scenario A — callback writes `(s1, 123)`, the exchange for
client `c1` at time 10 (within the TTL set at time 0) resolves tenant `123`,
deletes the `state:s1` entry and writes the client binding. -/
theorem C1_state_resolution_witness :
    noTransient ([] : Store)
      ∧ ("123" ≠ "") ∧ ("s1" ≠ "") ∧ ("c1" ≠ "") ∧ (10 < 0 + 600)
      ∧ (jlNum "123" = .err ∨ ∃ b, jlNum "123" = .scalar b "123")
      ∧ ∃ stFin, exchange_authorization_code jlNum (some "rtok") "ac" "c1"
            (handle_idp_callback [] 0 (some "123") (some "s1") none).store 10
              = ⟨some "123", stFin⟩
          ∧ rget stFin 10 (.stateK "s1") = none
          ∧ (∀ p ∈ stFin, p.1 ≠ RKey.stateK "s1")
          ∧ (∀ m, rget stFin m (.clientK "c1")
              = some (.binding "123" (some "rtok") 10)) :=
  ⟨fun p hp => absurd hp (List.not_mem_nil p), by decide, by decide, by decide,
    by decide, Or.inr ⟨true, by decide⟩,
    C1_state_resolution jlNum [] "123" "s1" "c1" "ac" (some "rtok") 0 10
      (fun p hp => absurd hp (List.not_mem_nil p)) (by decide) (by decide)
      (by decide) (by decide) (Or.inr ⟨true, by decide⟩)⟩

/-- C6 counterexample: the callback writes BOTH a state entry and a code
entry; the exchange resolves via the state entry and deletes only it — the
code-keyed `CodeCorrelation` entry written by the same callback is still in
the store after the successful resolution, contradicting the claim that no
transient entry of that flow remains. -/
theorem C6_counterexample :
    (exchange_authorization_code jlNum none "acx" "c1"
        (handle_idp_callback [] 0 (some "123") (some "s1") (some "abc")).store
        5).realm = some "123"
      ∧ rget (exchange_authorization_code jlNum none "acx" "c1"
          (handle_idp_callback [] 0 (some "123") (some "s1") (some "abc")).store
          5).store 5 (.codeK "abc") = some (.raw "123") := by
  decide

/-- C6 (amended): after an exchange that successfully resolves a tenant id
via the state-keyed entry, the consumed entry itself is deleted, but the
code-keyed fallback entry written by the same callback remains in the store
and disappears only when its 600-second TTL expires. -/
theorem C6_amended_consumed_entry_deleted (jl : String → JsonResult)
    (st0 : Store) (t s c cid ac : String) (rt : Option String) (now now' : Nat)
    (hst : noTransient st0) (ht : t ≠ "") (hs : s ≠ "") (hc : c ≠ "")
    (hcid : cid ≠ "") (httl : now' < now + 600)
    (hjl : jl t = .err ∨ ∃ b, jl t = .scalar b t) :
    ∃ stFin, exchange_authorization_code jl rt ac cid
        (handle_idp_callback st0 now (some t) (some s) (some c)).store now'
          = ⟨some t, stFin⟩
      ∧ rget stFin now' (.stateK s) = none
      ∧ rget stFin now' (.codeK c) = some (.raw t)
      ∧ (∀ m, now + 600 ≤ m → rget stFin m (.codeK c) = none) := by
  have habsS : ∀ p ∈ st0, p.1 ≠ RKey.stateK s := noTransient_ne_stateK st0 hst s
  have habsC : ∀ p ∈ st0, p.1 ≠ RKey.codeK c := noTransient_ne_codeK st0 hst c
  have hcb : (handle_idp_callback st0 now (some t) (some s) (some c)).store
      = rset (rset st0 (.stateK s) ⟨.raw t, some (now + 600)⟩)
          (.codeK c) ⟨.raw t, some (now + 600)⟩ := by
    have h1 : (pyTruthy (some t) && pyTruthy (some s)) = true := by
      simp [pyTruthy, ht, hs]
    have h2 : (pyTruthy (some t) && pyTruthy (some c)) = true := by
      simp [pyTruthy, ht, hc]
    simp only [handle_idp_callback, store_realm_by_state, setex, h1, h2,
      Option.getD_some]
    simp
  have happS : rset st0 (.stateK s) ⟨.raw t, some (now + 600)⟩
      = st0 ++ [(RKey.stateK s, ⟨.raw t, some (now + 600)⟩)] :=
    rset_of_absent st0 _ _ habsS
  have happC : rset (rset st0 (.stateK s) ⟨.raw t, some (now + 600)⟩)
      (.codeK c) ⟨.raw t, some (now + 600)⟩
      = st0 ++ [(RKey.stateK s, ⟨.raw t, some (now + 600)⟩)]
          ++ [(RKey.codeK c, ⟨.raw t, some (now + 600)⟩)] := by
    rw [happS]
    apply rset_of_absent
    intro p hp
    rcases List.mem_append.1 hp with hp | hp
    · exact habsC p hp
    · rw [List.mem_singleton.1 hp]
      exact fun h => RKey.noConfusion h
  have hscan : scanKeys (rset (rset st0 (.stateK s) ⟨.raw t, some (now + 600)⟩)
      (.codeK c) ⟨.raw t, some (now + 600)⟩) isStateKey = [RKey.stateK s] := by
    rw [happC, scanKeys_append, scanKeys_append, noTransient_scanState st0 hst]
    simp [scanKeys, isStateKey]
  have hget1 : rget (rset (rset st0 (.stateK s) ⟨.raw t, some (now + 600)⟩)
      (.codeK c) ⟨.raw t, some (now + 600)⟩) now' (.stateK s)
        = some (.raw t) := by
    rw [rget_rset_ne _ _ _ _ _ (fun h => RKey.noConfusion h), rget_rset_self]
    simp [live, httl]
  have hdel : rdel (rset (rset st0 (.stateK s) ⟨.raw t, some (now + 600)⟩)
      (.codeK c) ⟨.raw t, some (now + 600)⟩) (.stateK s)
        = rset st0 (.codeK c) ⟨.raw t, some (now + 600)⟩ := by
    rw [rdel_rset_comm _ _ _ _ (fun h => RKey.noConfusion h), rdel_rset_self,
      rdel_of_absent st0 _ habsS]
  have hm1 : scanStateLoop jl (rset (rset st0 (.stateK s)
      ⟨.raw t, some (now + 600)⟩) (.codeK c) ⟨.raw t, some (now + 600)⟩)
      now' [RKey.stateK s] none
        = (some t, rset st0 (.codeK c) ⟨.raw t, some (now + 600)⟩) := by
    rw [scanStateLoop_take jl _ now' _ t [] none hget1 ht hjl, hdel]
  have hex : exchange_authorization_code jl rt ac cid
      (rset (rset st0 (.stateK s) ⟨.raw t, some (now + 600)⟩)
        (.codeK c) ⟨.raw t, some (now + 600)⟩) now'
        = ⟨some t, store_realm_by_client_id
            (rset st0 (.codeK c) ⟨.raw t, some (now + 600)⟩) cid t rt now'⟩ := by
    unfold exchange_authorization_code
    rw [hscan, hm1]
    simp [pyTruthy, ht, hcid]
  refine ⟨store_realm_by_client_id
      (rset st0 (.codeK c) ⟨.raw t, some (now + 600)⟩) cid t rt now',
    ?_, ?_, ?_, ?_⟩
  · rw [hcb]
    exact hex
  · unfold store_realm_by_client_id
    rw [rget_rset_ne _ _ _ _ _ (fun h => RKey.noConfusion h),
      rget_rset_ne _ _ _ _ _ (fun h => RKey.noConfusion h)]
    exact rget_of_absent st0 _ now' habsS
  · unfold store_realm_by_client_id
    rw [rget_rset_ne _ _ _ _ _ (fun h => RKey.noConfusion h), rget_rset_self]
    simp [live, httl]
  · intro m hm
    unfold store_realm_by_client_id
    rw [rget_rset_ne _ _ _ _ _ (fun h => RKey.noConfusion h), rget_rset_self]
    simp only [live]
    rw [if_neg]
    simp
    omega

/-- C6 amended witness: with tenant `123`, state `s1`, code `abc`, the
exchange at time 5 resolves `123`, the state entry is gone, the code entry
is still readable at time 5 and gone at time 600. -/
theorem C6_amended_consumed_entry_deleted_witness :
    noTransient ([] : Store)
      ∧ ("123" ≠ "") ∧ ("s1" ≠ "") ∧ ("abc" ≠ "") ∧ ("c1" ≠ "")
      ∧ (5 < 0 + 600)
      ∧ (jlNum "123" = .err ∨ ∃ b, jlNum "123" = .scalar b "123")
      ∧ ∃ stFin, exchange_authorization_code jlNum none "acx" "c1"
            (handle_idp_callback [] 0 (some "123") (some "s1") (some "abc")).store
            5 = ⟨some "123", stFin⟩
          ∧ rget stFin 5 (.stateK "s1") = none
          ∧ rget stFin 5 (.codeK "abc") = some (.raw "123")
          ∧ (∀ m, 0 + 600 ≤ m → rget stFin m (.codeK "abc") = none) :=
  ⟨fun p hp => absurd hp (List.not_mem_nil p), by decide, by decide, by decide,
    by decide, by decide, Or.inr ⟨true, by decide⟩,
    C6_amended_consumed_entry_deleted jlNum [] "123" "s1" "abc" "c1" "acx"
      none 0 5 (fun p hp => absurd hp (List.not_mem_nil p)) (by decide)
      (by decide) (by decide) (by decide) (by decide)
      (Or.inr ⟨true, by decide⟩)⟩

/-- C2 counterexample: the code-keyed fallback is NOT keyed by this specific
authorization code — it is an unscoped first-match scan.  With the store
holding only the entry `code:zzz → 999` (written by a callback whose code was
`zzz`) and no entry at all for authorization code `abc123`, the exchange for
`abc123` still resolves tenant `999`, consuming the `code:zzz` entry. -/
theorem C2_counterexample :
    rget (handle_idp_callback [] 0 (some "999") none (some "zzz")).store 5
        (.codeK "abc123") = none
      ∧ (exchange_authorization_code jlNum none "abc123" "c1"
          (handle_idp_callback [] 0 (some "999") none (some "zzz")).store
          5).realm = some "999"
      ∧ rget (exchange_authorization_code jlNum none "abc123" "c1"
          (handle_idp_callback [] 0 (some "999") none (some "zzz")).store
          5).store 5 (.codeK "zzz") = none := by
  decide

/-- C2 (amended): when no state-keyed entry resolves a tenant id, the
exchange takes the FIRST live code-prefixed entry found by the scan —
regardless of whether its key matches this flow's authorization code — and
deletes it.  In particular (Scenario B), when the store's only transient
entry is the code-keyed entry written by this flow's callback (state absent,
tenantId and code present), the exchange resolves that callback's tenantId
from it, deletes it, and binds the tenant to the client. -/
theorem C2_amended_code_fallback (jl : String → JsonResult) (st0 : Store)
    (t c cid ac : String) (rt : Option String) (now now' : Nat)
    (hst : noTransient st0) (ht : t ≠ "") (hc : c ≠ "") (hcid : cid ≠ "")
    (httl : now' < now + 600) :
    ∃ stFin, exchange_authorization_code jl rt ac cid
        (handle_idp_callback st0 now (some t) none (some c)).store now'
          = ⟨some t, stFin⟩
      ∧ rget stFin now' (.codeK c) = none
      ∧ (∀ p ∈ stFin, p.1 ≠ RKey.codeK c)
      ∧ (∀ m, rget stFin m (.clientK cid) = some (.binding t rt now')) := by
  have habsC : ∀ p ∈ st0, p.1 ≠ RKey.codeK c := noTransient_ne_codeK st0 hst c
  have hcb : (handle_idp_callback st0 now (some t) none (some c)).store
      = rset st0 (.codeK c) ⟨.raw t, some (now + 600)⟩ := by
    have h2 : (pyTruthy (some t) && pyTruthy (some c)) = true := by
      simp [pyTruthy, ht, hc]
    simp only [handle_idp_callback, store_realm_by_state, setex, h2,
      Option.getD_some]
    simp [pyTruthy]
  have happ : rset st0 (.codeK c) ⟨.raw t, some (now + 600)⟩
      = st0 ++ [(RKey.codeK c, ⟨.raw t, some (now + 600)⟩)] :=
    rset_of_absent st0 _ _ habsC
  have hscanS : scanKeys (rset st0 (.codeK c) ⟨.raw t, some (now + 600)⟩)
      isStateKey = [] := by
    rw [happ, scanKeys_append, noTransient_scanState st0 hst]
    simp [scanKeys, isStateKey]
  have hscanC : scanKeys (rset st0 (.codeK c) ⟨.raw t, some (now + 600)⟩)
      isCodeKey = [RKey.codeK c] := by
    rw [happ, scanKeys_append, noTransient_scanCode st0 hst]
    simp [scanKeys, isCodeKey]
  have hget1 : rget (rset st0 (.codeK c) ⟨.raw t, some (now + 600)⟩) now'
      (.codeK c) = some (.raw t) := by
    rw [rget_rset_self]
    simp [live, httl]
  have hdel : rdel (rset st0 (.codeK c) ⟨.raw t, some (now + 600)⟩)
      (.codeK c) = st0 := by
    rw [rdel_rset_self]
    exact rdel_of_absent st0 _ habsC
  have hm2 : scanCodeLoop (rset st0 (.codeK c) ⟨.raw t, some (now + 600)⟩)
      now' [RKey.codeK c] none = (some t, st0) := by
    rw [scanCodeLoop_take _ now' _ _ [] none hget1 (by simp [valTruthy, ht])]
    rw [hdel]
    rfl
  have hex : exchange_authorization_code jl rt ac cid
      (rset st0 (.codeK c) ⟨.raw t, some (now + 600)⟩) now'
        = ⟨some t, store_realm_by_client_id st0 cid t rt now'⟩ := by
    unfold exchange_authorization_code
    rw [hscanS, scanStateLoop_nil]
    simp [pyTruthy, hscanC, hm2, ht, hcid]
  refine ⟨store_realm_by_client_id st0 cid t rt now', ?_, ?_, ?_, ?_⟩
  · rw [hcb]
    exact hex
  · unfold store_realm_by_client_id
    rw [rget_rset_ne _ _ _ _ _ (fun h => RKey.noConfusion h)]
    exact rget_of_absent st0 _ now' habsC
  · intro p hp
    unfold store_realm_by_client_id rset at hp
    rcases List.mem_append.1 hp with hp | hp
    · exact habsC p (List.mem_of_mem_filter hp)
    · rw [List.mem_singleton.1 hp]
      exact fun h => RKey.noConfusion h
  · intro m
    unfold store_realm_by_client_id
    rw [rget_rset_self]
    rfl

/-- C2 amended witness: Scenario B — callback omits `state` but carries
tenantId `456` and code `abc123`; the exchange resolves tenant `456` via the
`code:abc123` entry, deletes it, and binds `456` to client `c1`. -/
theorem C2_amended_code_fallback_witness :
    noTransient ([] : Store)
      ∧ ("456" ≠ "") ∧ ("abc123" ≠ "") ∧ ("c1" ≠ "") ∧ (5 < 0 + 600)
      ∧ ∃ stFin, exchange_authorization_code jlNum (some "rtok") "abc123" "c1"
            (handle_idp_callback [] 0 (some "456") none (some "abc123")).store
            5 = ⟨some "456", stFin⟩
          ∧ rget stFin 5 (.codeK "abc123") = none
          ∧ (∀ p ∈ stFin, p.1 ≠ RKey.codeK "abc123")
          ∧ (∀ m, rget stFin m (.clientK "c1")
              = some (.binding "456" (some "rtok") 5)) :=
  ⟨fun p hp => absurd hp (List.not_mem_nil p), by decide, by decide, by decide,
    by decide,
    C2_amended_code_fallback jlNum [] "456" "abc123" "c1" "abc123"
      (some "rtok") 0 5 (fun p hp => absurd hp (List.not_mem_nil p))
      (by decide) (by decide) (by decide) (by decide)⟩

/-- A store whose `client:`-keyed entries all hold serialized ClientBinding
records — the only shape `store_realm_by_client_id`, the sole writer of the
`client:` family, ever produces. -/
def clientEntriesWF (st : Store) : Prop :=
  ∀ p ∈ st, isClientKey p.1 = true → ∃ r rt u, p.2.val = StoredVal.binding r rt u

/-- C10: every authenticated result of `verify_token` — on the normal path
and on the timeout fail-open path alike — carries the presented raw token as
its `upstream_access_token` claim and the verifier's required scopes (as set
by the constructor) as its scopes; and for every store whose client entries
are well-formed binding records (including the empty store), a 200
introspection response yields an authenticated result — with a possibly-null
realm id — rather than a failure. -/
theorem C10_claims_carry_token_and_scopes (ps : Option (List String))
    (jl : String → JsonResult) (st : Store) (now : Nat) (token : String) :
    (∀ oc a, verify_token jl oc st now (verifierScopes ps) token = some a →
        a.upstream_access_token = token ∧ a.scopes = verifierScopes ps
          ∧ a.token = token)
      ∧ (clientEntriesWF st →
          (verify_token jl (.status 200) st now (verifierScopes ps)
            token).isSome = true) := by
  constructor
  · intro oc a h
    obtain ⟨h1, h2, h3, _⟩ := verify_some_shape jl oc st now _ token a h
    exact ⟨h2, by rw [h3, verifierScopes_or_nil], h1⟩
  · intro hwf
    simp only [verify_token]
    rw [if_neg (by decide)]
    rcases hsk : scanKeys st isClientKey with _ | ⟨k, ks⟩
    · simp
    · rcases hgd : get_realm_data_by_client_id st now (clientIdOfKey k)
        with _ | v
      · simp [hgd]
      · rcases v with s | ⟨r, rt, u⟩
        · exfalso
          obtain ⟨p, hp, hpk, hpv⟩ := rget_some_mem st now _ _ hgd
          obtain ⟨r, rt, u, hb⟩ := hwf p hp (by rw [hpk]; simp [isClientKey])
          rw [hpv] at hb
          exact StoredVal.noConfusion hb
        · simp [hgd]

/-- C10 witness: with an empty (well-formed) store and default scopes, a 200
introspection yields an authenticated result whose realm id is null and
whose claims carry the raw token and the required scopes. -/
theorem C10_claims_carry_token_and_scopes_witness :
    clientEntriesWF ([] : Store)
      ∧ (verify_token (fun _ => .err) (.status 200) [] 0 (verifierScopes none)
          "tok").isSome = true
      ∧ (verify_token (fun _ => .err) (.status 200) [] 0 (verifierScopes none)
            "tok" = some ⟨"tok", "default", [QBO_ACCOUNTING_SCOPE], "tok",
              none, 0, false⟩)
      ∧ ((⟨"tok", "default", [QBO_ACCOUNTING_SCOPE], "tok", none, 0, false⟩
            : AccessTok).upstream_access_token = "tok"
          ∧ (⟨"tok", "default", [QBO_ACCOUNTING_SCOPE], "tok", none, 0, false⟩
              : AccessTok).scopes = verifierScopes none
          ∧ (⟨"tok", "default", [QBO_ACCOUNTING_SCOPE], "tok", none, 0, false⟩
              : AccessTok).token = "tok") :=
  ⟨fun p hp _ => absurd hp (List.not_mem_nil p),
    (C10_claims_carry_token_and_scopes none (fun _ => .err) [] 0 "tok").2
      (fun p hp _ => absurd hp (List.not_mem_nil p)),
    by decide,
    (C10_claims_carry_token_and_scopes none (fun _ => .err) [] 0 "tok").1
      (.status 200) _ (by decide)⟩

end QboAuth
